import Mathlib

/-!
Verification development for the ML_Project scraping pipeline.

Shallow embedding of the core acquisition/orchestration code:
`step1_scraping_unified.py`, `step3b_multithreading_scrapers.py` and
`step3c_proxy_tor_runner.py`.  Machine floats are modelled as rationals,
Python `round(x, n)` as round-half-to-even on rationals, fallible calls as
`Option`, and the per-item loops as structural recursion (with explicit
fuel where the Python loop is not obviously terminating).
-/

/-- Round-half-to-even on rationals, modelling Python's `round` on a value
at integer precision (banker's rounding). -/
def roundHalfEven (q : ℚ) : ℤ :=
  if q - (⌊q⌋ : ℚ) < 1/2 then ⌊q⌋
  else if 1/2 < q - (⌊q⌋ : ℚ) then ⌊q⌋ + 1
  else if ⌊q⌋ % 2 = 0 then ⌊q⌋ else ⌊q⌋ + 1

/-- Python `round(x, n)` for `n` decimal places, on rationals. -/
def roundTo (n : Nat) (q : ℚ) : ℚ :=
  (roundHalfEven (q * (10 : ℚ) ^ n) : ℚ) / (10 : ℚ) ^ n

/-! ## Metrics accumulator

`class Metrics` of `step1_scraping_unified.py` (lines 57-78); the classes in
`step3b_multithreading_scrapers.py` (lines 32-39) and
`step3c_proxy_tor_runner.py` (lines 31-36) compute the same quantities. -/

structure Metrics where
  request_count : Nat
  total_bytes : Int
  latencies : List ℚ
deriving DecidableEq

/-- `Metrics.__init__`: zero requests, zero bytes, no samples. -/
def Metrics.init : Metrics := ⟨0, 0, []⟩

/-- `Metrics.record(latency_s, bytes_count)`: increment the request count,
add the byte count clamped at zero, append the latency clamped at zero. -/
def Metrics.record (m : Metrics) (latency_s : ℚ) (bytes_count : Int) : Metrics :=
  { request_count := m.request_count + 1
    total_bytes := m.total_bytes + max 0 bytes_count
    latencies := m.latencies ++ [max 0 latency_s] }

structure MetricsSummary where
  requests : Nat
  bytes : Int
  avg_latency_ms : ℚ
  total_latency_s : ℚ
deriving DecidableEq

/-- `Metrics.summary()`: average latency in ms (0.0 when no samples were
recorded — the empty list is checked before dividing), rounded to 2 decimal
places, and total latency rounded to 3 decimal places. -/
def Metrics.summary (m : Metrics) : MetricsSummary :=
  let avg_ms : ℚ :=
    if m.latencies.isEmpty then 0
    else 1000 * (m.latencies.sum / (m.latencies.length : ℚ))
  { requests := m.request_count
    bytes := m.total_bytes
    avg_latency_ms := roundTo 2 avg_ms
    total_latency_s := roundTo 3 m.latencies.sum }

/-- A whole run of `record` calls starting from a fresh accumulator. -/
def recordAll (calls : List (ℚ × Int)) : Metrics :=
  calls.foldl (fun m c => m.record c.1 c.2) Metrics.init

/-! ## Record normalizer -/

/-- Outcome of Python `float(x)` on the raw rating input: either a numeric
value, or any input on which `float` raises (`None`, non-numeric strings). -/
inductive RatingInput where
  | num (v : ℚ)
  | nonNumeric
deriving DecidableEq

/-- Value of the `rating` field: a number, or the sentinel `"N/A"`. -/
inductive RatingResult where
  | val (q : ℚ)
  | na
deriving DecidableEq

/-- `normalize_rating` (`step1_scraping_unified.py` lines 99-106): convert to
float, divide by 10 when above 10 (0-100 scale guard), clamp to [0,10] and
round to 1 decimal; any conversion failure yields the sentinel.  The
function is total: the `except` branch means it never raises. -/
def normalize_rating : RatingInput → RatingResult
  | .nonNumeric => .na
  | .num x =>
    let v : ℚ := if x > 10 then x / 10 else x
    .val (roundTo 1 (max 0 (min 10 v)))

/-! ## Date normalizer

`normalize_date` (`step1_scraping_unified.py` lines 95-97) delegates to the
pandas library: `pd.to_datetime(s, errors="coerce")` then
`strftime("%Y-%m-%d")`, returning `"N/A"` on `NaT`.  pandas is external to
the repository, so its parse/format pair is modelled as an interface. -/

/-- Interface of the pandas date parse/format pair used by `normalize_date`:
`parse` models `pd.to_datetime(·, errors="coerce")` (`none` = `NaT`), `fmt`
models `strftime("%Y-%m-%d")`.  The two properties record the library
contract the code relies on: formatting a successfully parsed value
re-parses to the same value, and the sentinel string is not parseable. -/
structure DateLib (D : Type) where
  parse : String → Option D
  fmt : D → String
  fmt_parse : ∀ (s : String) (d : D), parse s = some d → parse (fmt d) = some d
  parse_na : parse "N/A" = none

/-- `normalize_date(s)`: format the parsed date, or the sentinel on `NaT`. -/
def normalize_date {D : Type} (L : DateLib D) (s : String) : String :=
  match L.parse s with
  | some d => L.fmt d
  | none => "N/A"

/-- Shape test for a 10-character `YYYY-MM-DD` string (digits and dashes;
dash is character code 45). -/
def isoShape (s : String) : Bool :=
  match s.data with
  | [y1, y2, y3, y4, h1, m1, m2, h2, d1, d2] =>
    y1.isDigit && y2.isDigit && y3.isDigit && y4.isDigit &&
    (h1.toNat == 45) && m1.isDigit && m2.isDigit &&
    (h2.toNat == 45) && d1.isDigit && d2.isDigit
  | _ => false

/-- Concrete instance of the pandas interface that parses exactly the
ISO-shaped strings (used to instantiate the idempotence theorem). -/
def isoDateLib : DateLib String where
  parse s := if isoShape s then some s else none
  fmt d := d
  fmt_parse := by
    intro s d h
    by_cases hs : isoShape s
    · simp only [hs, if_true, Option.some.injEq] at h
      subst h
      simp [hs]
    · simp [hs] at h
  parse_na := by decide

/-! ## Pagination loops (claim C2)

`scrape_api` in `step1_scraping_unified.py` (lines 127-172) and in
`step3c_proxy_tor_runner.py` (lines 83-113).  The environment is abstracted
as `pages : Nat → Nat`, the number of result items the listing endpoint
returns for each page.  Each loop iteration consumes at most
`target - fetched` of the current page's items.  The loops are given
explicit fuel; a `none` result means the fuel ran out, i.e. the Python
loop has not terminated within that many iterations.  The result on
termination is `(fetched, page)`: the number of records produced and the
final value of the page counter. -/

/-- The step1 pagination loop: `while fetched < max_movies`, fetch the page,
`if not results: break`, consume up to `target - fetched` items, `page += 1`. -/
def apiPaginateStep1 (pages : Nat → Nat) (target : Nat) :
    Nat → Nat → Nat → Option (Nat × Nat)
  | 0, _, _ => none
  | fuel + 1, page, fetched =>
    if target ≤ fetched then some (fetched, page)
    else if pages page = 0 then some (fetched, page)
    else apiPaginateStep1 pages target fuel (page + 1)
      (fetched + min (pages page) (target - fetched))

/-- The step3c pagination loop (`scrape_api` in `step3c_proxy_tor_runner.py`):
identical except that there is no `if not results: break` — an empty
results page does not stop the loop. -/
def apiPaginateStep3c (pages : Nat → Nat) (target : Nat) :
    Nat → Nat → Nat → Option (Nat × Nat)
  | 0, _, _ => none
  | fuel + 1, page, fetched =>
    if target ≤ fetched then some (fetched, page)
    else apiPaginateStep3c pages target fuel (page + 1)
      (fetched + min (pages page) (target - fetched))

/-! ## Dedup/Join engine (claim C4)

`build_common_by_id` in `step1_scraping_unified.py` (lines 349-387): if any
input list is empty the join is skipped (empty output); otherwise the three
data frames are inner-merged pairwise on `tmdb_id` and the tidy output keeps
the API (first input) columns.  A pandas inner merge emits one output row
per matching pair of keyed rows, so a key repeated on both sides multiplies. -/

/-- One row of a per-method result set: the join key and the remaining
field values (abstracted as an arbitrary payload). -/
structure SRow (A : Type) where
  id : Int
  payload : A
deriving DecidableEq

/-- The merge part of `build_common_by_id`: for each API row, one output row
per matching BS4 row per matching Selenium row; the output row keeps the
API row's values (the tidy frame selects the `_api` columns). -/
def joinCore {A : Type} (X Y Z : List (SRow A)) : List (SRow A) :=
  X.flatMap fun a =>
    ((Y.filter fun b => b.id == a.id).flatMap fun _ =>
      (Z.filter fun c => c.id == a.id).map fun _ => a)

/-- `build_common_by_id(api, bs4, selenium)`: empty-input guard (lines
351-356) then the inner merge keyed on `tmdb_id`, keeping API values. -/
def build_common_by_id {A : Type} (X Y Z : List (SRow A)) : List (SRow A) :=
  if X.isEmpty || Y.isEmpty || Z.isEmpty then []
  else joinCore X Y Z

/-- Duplicate-id inputs for the join: two copies of id 1 in the first and
second sets, one in the third. -/
def dupX : List (SRow Unit) := [⟨1, ()⟩, ⟨1, ()⟩]

/-- Second input set with a duplicated id. -/
def dupY : List (SRow Unit) := [⟨1, ()⟩, ⟨1, ()⟩]

/-- Third input set, a single row with the shared id. -/
def dupZ : List (SRow Unit) := [⟨1, ()⟩]

/-! ## Navigation state machine (claims C5, C6)

`safe_get` in `step3c_proxy_tor_runner.py` (lines 163-191): a bounded retry
loop around `driver.get`.  Each attempt is abstracted by its outcome. -/

/-- Outcome of one `driver.get(url)` attempt. -/
inductive NavAttempt where
  | loadOk
  | loadTimeout
  | wdErr
  | otherErr
deriving DecidableEq

/-- The `mode` component of `safe_get`'s return value
(`'ok' | 'partial' | 'error'`); `partDom` is the partial-DOM state entered
on a page-load timeout. -/
inductive NavMode where
  | full
  | partDom
  | err
deriving DecidableEq

/-- What `safe_get` does from the caller's point of view: return an
`(ok, mode)` pair, or let an exception escape.  Every branch of the Python
function catches (`TimeoutException`, `WebDriverException`, bare
`Exception`), so the embedding shows `raised` is never produced. -/
inductive NavReturn where
  | returned (ok : Bool) (mode : NavMode)
  | raised
deriving DecidableEq

/-- The `for attempt in range(retries + 1)` body of `safe_get`, with the
remaining attempt count as fuel.  `loadOk` returns `(True, "ok")`;
`loadTimeout` stops the load (`window.stop()`, itself guarded by a
try/except) and returns `(True, "partial")`; a `WebDriverException` or any
other exception returns `(False, "error")` on the last attempt and
otherwise sleeps and retries.  The fuel-0 case is the unreachable
`return False, "error", None` after the loop. -/
def safeGetLoop (outcomes : Nat → NavAttempt) (i : Nat) : Nat → NavReturn
  | 0 => .returned false .err
  | fuel + 1 =>
    match outcomes i with
    | .loadOk => .returned true .full
    | .loadTimeout => .returned true .partDom
    | .wdErr => if fuel = 0 then .returned false .err else safeGetLoop outcomes (i + 1) fuel
    | .otherErr => if fuel = 0 then .returned false .err else safeGetLoop outcomes (i + 1) fuel

/-- `safe_get(driver, url, timeout, retries)`: attempts at indices
`0 .. retries`. -/
def safe_get (outcomes : Nat → NavAttempt) (retries : Nat) : NavReturn :=
  safeGetLoop outcomes 0 (retries + 1)

/-! ## Detail-page field extraction (claims C1, C6)

The selector queries both detail-page extractors perform on a parsed
document are abstracted as a record of their results: `select_one` gives an
`Option` (stripped text), `select` a list, attribute lookups an `Option`. -/

/-- Results of the selector queries on one detail page. -/
structure PageSel where
  titleTag : Option String
  releaseTag : Option String
  overviewTag : Option String
  genreTags : List String
  ratingPercent : Option RatingInput
  posterAttrs : Option (Option String × Option String)
deriving DecidableEq

/-- The field values extracted from a detail page.  `poster_url` is an
`Option` because Python's `(tag.get("data-src") or tag.get("src"))` is
`None` when the tag is present but both attributes are missing. -/
structure FieldVals where
  title : String
  release_date : String
  overview : String
  genres : String
  rating : RatingResult
  poster_url : Option String
deriving DecidableEq

/-- Python `a or b` on optional attribute strings: `a` unless it is falsy
(`None` or the empty string). -/
def pyOrStr (a b : Option String) : Option String :=
  match a with
  | some v => if v = "" then b else some v
  | none => b

/-- Field extraction in the detail loop of `scrape_selenium`
(`step3c_proxy_tor_runner.py` lines 261-268). -/
def extractDetailSelenium (i : Int) (p : PageSel) : FieldVals :=
  { title := match p.titleTag with
      | some t => t
      | none => "Movie " ++ toString i
    release_date := match p.releaseTag with
      | some t => t
      | none => "N/A"
    overview := match p.overviewTag with
      | some t => t
      | none => "N/A"
    genres := match p.genreTags with
      | [] => "N/A"
      | gs => String.intercalate " | " gs
    rating := match p.ratingPercent with
      | some x => normalize_rating x
      | none => .na
    poster_url := match p.posterAttrs with
      | some (d, sr) => pyOrStr d sr
      | none => some "N/A" }

/-- Field extraction in `fetch_detail_bs4` (`step3c_proxy_tor_runner.py`
lines 138-145), the static-HTML variant. -/
def extractDetailBs4 (i : Int) (p : PageSel) : FieldVals :=
  { title := match p.titleTag with
      | some t => t
      | none => "Movie " ++ toString i
    release_date := match p.releaseTag with
      | some t => t
      | none => "N/A"
    overview := match p.overviewTag with
      | some t => t
      | none => "N/A"
    genres := match p.genreTags with
      | [] => "N/A"
      | gs => String.intercalate " | " gs
    rating := match p.ratingPercent with
      | some x => normalize_rating x
      | none => .na
    poster_url := match p.posterAttrs with
      | some (d, sr) => pyOrStr d sr
      | none => some "N/A" }

/-- The CSS selectors and attribute names used by the `scrape_selenium`
detail loop, in field order (title, release date, overview, genres, rating
chart + attribute, poster + attributes). -/
def seleniumDetailSelectors : List String :=
  ["h2.title, h2 a, h2",
   "span.release", "span[itemprop=\x27datePublished\x27]",
   "div.overview p, #overview p, div.facts p",
   "span.genres a, a[href*=\x27/genre/\x27]",
   "div.user_score_chart", "data-percent",
   "img.poster", "data-src", "src"]

/-- The CSS selectors and attribute names used by `fetch_detail_bs4`, in
the same field order. -/
def bs4DetailSelectors : List String :=
  ["h2.title, h2 a, h2",
   "span.release", "span[itemprop=\x27datePublished\x27]",
   "div.overview p, #overview p, div.facts p",
   "span.genres a, a[href*=\x27/genre/\x27]",
   "div.user_score_chart", "data-percent",
   "img.poster", "data-src", "src"]

/-- The canonical detail-page URL `f"{BASE_URL}/movie/{id}"`. -/
def detailUrl (i : Int) : String :=
  "https://www.themoviedb.org/movie/" ++ toString i

/-- One output record of the step3c runner. -/
structure MovieRow where
  tmdb_id : Int
  vals : FieldVals
  movie_url : String
  method : String
deriving DecidableEq

/-- `fetch_detail_bs4(mid_, session, metrics)` (lines 133-149): `None` when
the HTTP response is not ok, otherwise a record whose `method` field is the
literal `"BS4_TOR"` — unconditionally, with no dependence on the session's
proxy route. -/
def fetch_detail_bs4 (i : Int) (body : Option PageSel) : Option MovieRow :=
  match body with
  | none => none
  | some p => some ⟨i, extractDetailBs4 i p, detailUrl i, "BS4_TOR"⟩

/-! ## Method tags and the proxy router (claim C1) -/

/-- The `method` value of a record built by `scrape_api` in
`step3c_proxy_tor_runner.py` (line 107): `"API_TOR" if proxies else "API"`. -/
def apiMethodTag (proxiesEnabled : Bool) : String :=
  if proxiesEnabled then "API_TOR" else "API"

/-- The `method` value of a record built by `scrape_selenium` in
`step3c_proxy_tor_runner.py` (line 273):
`"Selenium_TOR" if use_tor else "Selenium"`. -/
def seleniumMethodTag (useTor : Bool) : String :=
  if useTor then "Selenium_TOR" else "Selenium"

/-- `__main__` of `step3c_proxy_tor_runner.py` (line 297): the Tor proxy
configuration is installed only when the run requested Tor AND the
`check_tor()` reachability probe succeeded. -/
def mainProxiesEnabled (requestedTor probeOk : Bool) : Bool :=
  requestedTor && probeOk

/-- Network route of a run component. -/
inductive NetRoute where
  | torRoute
  | directRoute
deriving DecidableEq

/-- Route of the Chrome driver in `scrape_selenium`
(`step3c_proxy_tor_runner.py` line 205): the `--proxy-server` SOCKS
argument is added exactly when `use_tor`. -/
def seleniumDriverRoute (useTor : Bool) : NetRoute :=
  if useTor then .torRoute else .directRoute

/-- Route of the `fallback_session` built in `scrape_selenium`
(`step3c_proxy_tor_runner.py` line 211): Tor proxies exactly when
`use_tor`. -/
def fallbackSessionRoute (useTor : Bool) : NetRoute :=
  if useTor then .torRoute else .directRoute

/-! ## The detail loop of `scrape_selenium` (claim C6) -/

/-- Outcome of the `fallback_session.get(url)` call: an ok response with a
parsed body, a non-ok HTTP status, or a raised exception. -/
inductive HttpResult where
  | ok (p : PageSel)
  | httpErr (code : Nat)
  | exn
deriving DecidableEq

/-- Environment of one iteration of the detail loop: the movie id, the
`(ok, mode)` pair returned by `safe_get`, the DOM snapshot
(`driver.page_source`), and what the Transport fallback would return for
the same URL. -/
structure ItemEnv where
  movieId : Int
  navOk : Bool
  navMode : NavMode
  dom : PageSel
  fb : HttpResult
deriving DecidableEq

/-- One iteration of the detail loop in `scrape_selenium`
(`step3c_proxy_tor_runner.py` lines 238-275): on `(not ok and mode ==
"error")` re-issue the same URL through the fallback session and parse the
body when the response is ok, `continue` (no record) on a non-ok status or
an exception; otherwise parse the DOM snapshot.  Either way the record is
built by the shared extraction block. -/
def processDetailItem (useTor : Bool) (it : ItemEnv) : Option MovieRow :=
  if it.navOk = false ∧ it.navMode = NavMode.err then
    match it.fb with
    | .ok p => some ⟨it.movieId, extractDetailSelenium it.movieId p,
        detailUrl it.movieId, seleniumMethodTag useTor⟩
    | .httpErr _ => none
    | .exn => none
  else
    some ⟨it.movieId, extractDetailSelenium it.movieId it.dom,
      detailUrl it.movieId, seleniumMethodTag useTor⟩

/-- The whole detail loop: items are processed in order and the skipped
ones (`continue`) contribute no record. -/
def processDetailItems (useTor : Bool) (items : List ItemEnv) : List MovieRow :=
  items.filterMap (processDetailItem useTor)

/-! ## Concurrent metrics recording (claim C8)

`Metrics.record` in `step3b_multithreading_scrapers.py` (lines 35-36) runs
on the thread-pool workers with no lock.  CPython executes
`self.count += 1` as separate load and store bytecodes, so the interpreter
may switch threads between the read and the write; `self.latencies.append`
is a single atomic list operation.  The model: two workers each perform
one `record` call, split into read-count / write-count / append-sample
atomic steps, interleaved by an explicit schedule. -/

/-- Shared accumulator state plus each worker's program counter and the
count value it has read. -/
structure RaceState where
  count : Nat
  samples : Nat
  reg0 : Nat
  pc0 : Nat
  reg1 : Nat
  pc1 : Nat
deriving DecidableEq

/-- Initial state: fresh accumulator, both workers about to run `record`. -/
def raceInit : RaceState := ⟨0, 0, 0, 0, 0, 0⟩

/-- One atomic step of the scheduled worker (`false` = worker 0, `true` =
worker 1): pc 0 reads `self.count`, pc 1 writes the read value plus one,
pc 2 appends the latency sample; pc 3 means the call finished. -/
def raceStep (tid : Bool) (s : RaceState) : RaceState :=
  if tid then
    match s.pc1 with
    | 0 => { s with reg1 := s.count, pc1 := 1 }
    | 1 => { s with count := s.reg1 + 1, pc1 := 2 }
    | 2 => { s with samples := s.samples + 1, pc1 := 3 }
    | _ => s
  else
    match s.pc0 with
    | 0 => { s with reg0 := s.count, pc0 := 1 }
    | 1 => { s with count := s.reg0 + 1, pc0 := 2 }
    | 2 => { s with samples := s.samples + 1, pc0 := 3 }
    | _ => s

/-- Run a schedule of thread switches from the initial state. -/
def raceRun (sched : List Bool) : RaceState :=
  sched.foldl (fun s t => raceStep t s) raceInit

/-- The lost-update schedule: both workers read the count before either
writes it back. -/
def raceLostSched : List Bool :=
  [false, true, false, false, true, true]

/-- A fully sequential schedule: worker 0's call completes before worker
1's begins. -/
def raceSeqSched : List Bool :=
  [false, false, false, true, true, true]

/-- Sample `record` calls used to instantiate the metrics theorems. -/
def demoCalls : List (ℚ × Int) := [(1, 5), (2, 7)]

/-- Join inputs with pairwise-distinct ids used to instantiate the amended
join theorem: ids 1,2 / 2,3 / 2. -/
def woX : List (SRow Unit) := [⟨1, ()⟩, ⟨2, ()⟩]

/-- Second distinct-id join input. -/
def woY : List (SRow Unit) := [⟨2, ()⟩, ⟨3, ()⟩]

/-- Third distinct-id join input. -/
def woZ : List (SRow Unit) := [⟨2, ()⟩]

/-! # Theorems -/

/-- The foldl of `record` calls: the request count grows by one per call
and the latency list accumulates the clamped latencies in order. -/
theorem recordAll_spec (calls : List (ℚ × Int)) :
    (recordAll calls).request_count = calls.length ∧
    (recordAll calls).latencies = calls.map (fun c => max 0 c.1) := by
  have key : ∀ (cs : List (ℚ × Int)) (m : Metrics),
      (cs.foldl (fun m c => m.record c.1 c.2) m).request_count
        = m.request_count + cs.length ∧
      (cs.foldl (fun m c => m.record c.1 c.2) m).latencies
        = m.latencies ++ cs.map (fun c => max 0 c.1) := by
    intro cs
    induction cs with
    | nil => intro m; simp
    | cons c cs ih =>
      intro m
      have h := ih (m.record c.1 c.2)
      refine ⟨?_, ?_⟩
      · rw [List.foldl_cons, h.1]
        simp [Metrics.record]
        omega
      · rw [List.foldl_cons, h.2]
        simp [Metrics.record]
  have h := key calls Metrics.init
  simpa [recordAll, Metrics.init] using h

/-- C7: after any sequence of `record(latency, byteSize)` calls,
`summary()` reports a request count equal to the number of recorded
samples, a total latency equal to their sum rounded to 3 decimal places,
and (when at least one sample exists) an average latency equal to the mean
of the recorded (clamped) latencies times 1000, rounded to 2 decimal
places. -/
theorem c7_metrics_summary (calls : List (ℚ × Int)) :
    (recordAll calls).summary.requests = calls.length ∧
    (recordAll calls).summary.total_latency_s
      = roundTo 3 ((calls.map fun c => max 0 c.1).sum) ∧
    (calls ≠ [] →
      (recordAll calls).summary.avg_latency_ms
        = roundTo 2 (1000 * ((calls.map fun c => max 0 c.1).sum
            / (((calls.map fun c => max 0 c.1).length : ℚ))))) := by
  obtain ⟨h1, h2⟩ := recordAll_spec calls
  refine ⟨?_, ?_, ?_⟩
  · simp [Metrics.summary, h1]
  · simp [Metrics.summary, h2]
  · intro hne
    have hemp : (recordAll calls).latencies.isEmpty = false := by
      rw [h2]
      cases calls with
      | nil => exact absurd rfl hne
      | cons c cs => simp
    simp [Metrics.summary, hemp, h2, hne]

/-- Witness for C7 at two concrete calls. -/
theorem c7_metrics_summary_witness :
    demoCalls ≠ [] ∧
    (recordAll demoCalls).summary.requests = demoCalls.length ∧
    (recordAll demoCalls).summary.avg_latency_ms
      = roundTo 2 (1000 * ((demoCalls.map fun c => max 0 c.1).sum
          / (((demoCalls.map fun c => max 0 c.1).length : ℚ)))) :=
  ⟨by decide, (c7_metrics_summary demoCalls).1,
    (c7_metrics_summary demoCalls).2.2 (by decide)⟩

/-- Rounding at integer zero gives zero. -/
theorem roundHalfEven_zero : roundHalfEven 0 = 0 := by
  norm_num [roundHalfEven]

/-- Rounding zero at any precision gives zero. -/
theorem roundTo_zero (n : Nat) : roundTo n 0 = 0 := by
  simp [roundTo, roundHalfEven_zero]

/-- C10: `summary()` on an accumulator with zero recorded samples returns
zero for every component — the empty latency list is checked before the
mean is computed, so no division by zero occurs. -/
theorem c10_empty_summary : (recordAll []).summary = ⟨0, 0, 0, 0⟩ := by
  show (Metrics.init).summary = _
  unfold Metrics.summary
  simp [Metrics.init, roundTo_zero]

/-- C3: for numeric ratings above 10, `normalize_rating` divides by 10,
clamps to [0,10] and rounds to 1 decimal place; for ratings already in
[0,10] it rounds to 1 decimal place; non-numeric input yields the sentinel
(the function is total, so it never raises). -/
theorem c3_normalize_rating_spec :
    (∀ r : ℚ, r > 10 →
      normalize_rating (.num r) = .val (roundTo 1 (max 0 (min 10 (r / 10)))))
    ∧ (∀ r : ℚ, 0 ≤ r → r ≤ 10 →
      normalize_rating (.num r) = .val (roundTo 1 r))
    ∧ normalize_rating .nonNumeric = .na := by
  refine ⟨?_, ?_, rfl⟩
  · intro r hr
    simp [normalize_rating, hr]
  · intro r h0 h10
    have hnot : ¬ (r > 10) := not_lt.mpr h10
    have hmin : min 10 r = r := min_eq_right h10
    have hmax : max 0 r = r := max_eq_right h0
    simp [normalize_rating, hnot, hmin, hmax]

/-- Witness for C3 at a 0-100-scale rating and an in-range rating. -/
theorem c3_normalize_rating_spec_witness :
    ((85 : ℚ) > 10
      ∧ normalize_rating (.num 85) = .val (roundTo 1 (max 0 (min 10 (85 / 10)))))
    ∧ ((0 : ℚ) ≤ 7 ∧ (7 : ℚ) ≤ 10
      ∧ normalize_rating (.num 7) = .val (roundTo 1 7)) :=
  ⟨⟨by norm_num, c3_normalize_rating_spec.1 85 (by norm_num)⟩,
   by norm_num, by norm_num,
   c3_normalize_rating_spec.2.1 7 (by norm_num) (by norm_num)⟩

/-- C9: `normalize_date` is idempotent for every parse/format pair
satisfying the pandas round-trip contract — in particular an ISO output
and the sentinel `"N/A"` are both fixed points. -/
theorem c9_normalize_date_idempotent :
    ∀ (D : Type) (L : DateLib D) (s : String),
      normalize_date L (normalize_date L s) = normalize_date L s := by
  intro D L s
  cases h : L.parse s with
  | none => simp [normalize_date, h, L.parse_na]
  | some d => simp [normalize_date, h, L.fmt_parse s d h]

/-- Witness for C9 on the concrete ISO parser at an ISO date and at the
sentinel. -/
theorem c9_normalize_date_idempotent_witness :
    normalize_date isoDateLib (normalize_date isoDateLib "2024-05-01")
        = normalize_date isoDateLib "2024-05-01"
    ∧ normalize_date isoDateLib (normalize_date isoDateLib "N/A")
        = normalize_date isoDateLib "N/A" :=
  ⟨c9_normalize_date_idempotent String isoDateLib "2024-05-01",
   c9_normalize_date_idempotent String isoDateLib "N/A"⟩

/-- C1 (code bug): in the probe-failure scenario (`--proxy tor` requested,
`check_tor()` returns failure) the main wiring disables the proxy
configuration, so API records are tagged `"API"` and Selenium records
`"Selenium"` — but every record `fetch_detail_bs4` produces carries the
hard-coded tag `"BS4_TOR"`, which is not the direct-route tag `"BS4"`. -/
theorem c1_probe_failure_method_tags :
    mainProxiesEnabled true false = false
    ∧ apiMethodTag (mainProxiesEnabled true false) = "API"
    ∧ seleniumMethodTag (mainProxiesEnabled true false) = "Selenium"
    ∧ (∀ (i : Int) (p : PageSel),
        (fetch_detail_bs4 i (some p)).map MovieRow.method = some "BS4_TOR")
    ∧ "BS4_TOR" ≠ "BS4" :=
  ⟨rfl, rfl, rfl, fun _ _ => rfl, by decide⟩

/-- C8 (code bug): with the unsynchronized `record`, the schedule in which
both workers read the count before either writes it back completes both
calls (both program counters final), appends both samples, yet leaves the
request count at 1 instead of 2; the sequential schedule yields 2. -/
theorem c8_concurrent_record_lost_update :
    (raceRun raceLostSched).pc0 = 3 ∧ (raceRun raceLostSched).pc1 = 3
    ∧ (raceRun raceLostSched).samples = 2
    ∧ (raceRun raceLostSched).count = 1
    ∧ (raceRun raceLostSched).count ≠ 2
    ∧ (raceRun raceSeqSched).count = 2 := by
  decide

/-- The retry loop of `safe_get` returns the partial-DOM success as soon as
an attempt times out, provided every earlier attempt was a retried error. -/
theorem safeGetLoop_timeout (outcomes : Nat → NavAttempt) :
    ∀ (k fuel start : Nat), k < fuel →
      outcomes (start + k) = NavAttempt.loadTimeout →
      (∀ j, j < k → outcomes (start + j) = NavAttempt.wdErr
        ∨ outcomes (start + j) = NavAttempt.otherErr) →
      safeGetLoop outcomes start fuel = NavReturn.returned true NavMode.partDom := by
  intro k
  induction k with
  | zero =>
    intro fuel start hk ht _
    obtain ⟨f, rfl⟩ : ∃ f, fuel = f + 1 := ⟨fuel - 1, by omega⟩
    rw [Nat.add_zero] at ht
    simp [safeGetLoop, ht]
  | succ k ih =>
    intro fuel start hk ht hpre
    obtain ⟨f, rfl⟩ : ∃ f, fuel = f + 1 := ⟨fuel - 1, by omega⟩
    have hf : f ≠ 0 := by omega
    have h0 := hpre 0 (by omega)
    rw [Nat.add_zero] at h0
    have step : safeGetLoop outcomes start (f + 1)
        = safeGetLoop outcomes (start + 1) f := by
      rcases h0 with h | h <;> simp [safeGetLoop, h, hf]
    rw [step]
    have ht' : outcomes (start + 1 + k) = NavAttempt.loadTimeout := by
      have e : start + 1 + k = start + (k + 1) := by omega
      rw [e]; exact ht
    refine ih f (start + 1) (by omega) ht' ?_
    intro j hj
    have e : start + 1 + j = start + (j + 1) := by omega
    rw [e]
    exact hpre (j + 1) (by omega)

/-- C5: whenever the page-load timeout elapses on the attempt that
`safe_get` reaches (all earlier attempts were retried transport errors),
`safe_get` halts the load and returns `(True, "partial")` — the partial-DOM
success — and no exception escapes to the caller (the `raised` alternative
is not produced). -/
theorem c5_timeout_partial (outcomes : Nat → NavAttempt) (retries i : Nat)
    (hle : i ≤ retries)
    (ht : outcomes i = NavAttempt.loadTimeout)
    (hpre : ∀ j, j < i → outcomes j = NavAttempt.wdErr
      ∨ outcomes j = NavAttempt.otherErr) :
    safe_get outcomes retries = NavReturn.returned true NavMode.partDom := by
  have h := safeGetLoop_timeout outcomes i (retries + 1) 0 (by omega)
    (by simpa using ht) (fun j hj => by simpa using hpre j hj)
  simpa [safe_get] using h

/-- Witness for C5: a navigation whose first attempt times out, with a
retry budget of 2. -/
theorem c5_timeout_partial_witness :
    0 ≤ 2 ∧ safe_get (fun _ => NavAttempt.loadTimeout) 2
      = NavReturn.returned true NavMode.partDom :=
  ⟨by omega, c5_timeout_partial (fun _ => NavAttempt.loadTimeout) 2 0 (by omega)
    rfl (fun j hj => absurd hj (Nat.not_lt_zero j))⟩

/-- The step3c pagination loop never terminates on a source whose listing
pages are all empty: no amount of fuel reaches a result. -/
theorem apiPaginateStep3c_empty_diverges :
    ∀ (fuel page : Nat), apiPaginateStep3c (fun _ => 0) 1 fuel page 0 = none := by
  intro fuel
  induction fuel with
  | zero => intro page; rfl
  | succ f ih =>
    intro page
    simp only [apiPaginateStep3c]
    norm_num
    simpa using ih (page + 1)

/-- The step1 pagination loop terminates within `target - fetched + 1`
iterations: every iteration either returns (target reached or page empty)
or fetches at least one more record. -/
theorem apiPaginateStep1_term (pages : Nat → Nat) (target : Nat) :
    ∀ (n page fetched : Nat), target - fetched ≤ n →
      apiPaginateStep1 pages target (n + 1) page fetched ≠ none := by
  intro n
  induction n with
  | zero =>
    intro page fetched h
    have h1 : target ≤ fetched := by omega
    simp [apiPaginateStep1, h1]
  | succ n ih =>
    intro page fetched h
    by_cases h1 : target ≤ fetched
    · simp [apiPaginateStep1, h1]
    · by_cases h2 : pages page = 0
      · simp [apiPaginateStep1, h1, h2]
      · have step : apiPaginateStep1 pages target (n + 1 + 1) page fetched
            = apiPaginateStep1 pages target (n + 1) (page + 1)
              (fetched + min (pages page) (target - fetched)) := by
          simp [apiPaginateStep1, h1, h2]
        rw [step]
        refine ih (page + 1) (fetched + min (pages page) (target - fetched)) ?_
        have hp : 1 ≤ pages page := Nat.one_le_iff_ne_zero.mpr h2
        have hmin : 1 ≤ min (pages page) (target - fetched) :=
          le_min hp (by omega)
        omega

/-- C2 (code bug): the step3c API pagination loop does not stop on a
zero-candidate listing page — on an exhausted source it runs forever
(no fuel suffices), while the step1 loop with the same target always
terminates (fuel `target + 1` suffices for any source), and on the
all-empty source it stops immediately with zero records and the page
counter unadvanced. -/
theorem c2_pagination_termination_divergence :
    (∀ fuel : Nat, apiPaginateStep3c (fun _ => 0) 1 fuel 1 0 = none)
    ∧ (∀ (pages : Nat → Nat) (target page : Nat),
        apiPaginateStep1 pages target (target + 1) page 0 ≠ none)
    ∧ apiPaginateStep1 (fun _ => 0) 1 2 1 0 = some (0, 1) := by
  refine ⟨fun fuel => apiPaginateStep3c_empty_diverges fuel 1, ?_, by decide⟩
  intro pages target page
  exact apiPaginateStep1_term pages target target page 0 (by omega)

/-- C6: on the terminal navigation failure `(False, "error")` the detail
loop re-issues the same URL through the Transport fallback session, which
runs on the same route as the browser; an ok fallback response is parsed
with exactly the selector contract of the static-HTML variant
(selector lists and extraction functions coincide); a failed fallback
(non-ok status or exception) skips the item while the remaining items are
processed unchanged. -/
theorem c6_failed_nav_fallback :
    (seleniumDetailSelectors = bs4DetailSelectors
      ∧ ∀ (i : Int) (p : PageSel), extractDetailSelenium i p = extractDetailBs4 i p)
    ∧ (∀ (u : Bool) (i : Int) (dom p : PageSel),
        processDetailItem u ⟨i, false, NavMode.err, dom, HttpResult.ok p⟩
          = some ⟨i, extractDetailBs4 i p, detailUrl i, seleniumMethodTag u⟩)
    ∧ (∀ u : Bool, fallbackSessionRoute u = seleniumDriverRoute u)
    ∧ (∀ (u : Bool) (xs ys : List ItemEnv) (i : Int) (dom : PageSel) (c : Nat),
        processDetailItems u
            (xs ++ ⟨i, false, NavMode.err, dom, HttpResult.httpErr c⟩ :: ys)
          = processDetailItems u xs ++ processDetailItems u ys
        ∧ processDetailItems u
            (xs ++ ⟨i, false, NavMode.err, dom, HttpResult.exn⟩ :: ys)
          = processDetailItems u xs ++ processDetailItems u ys) := by
  refine ⟨⟨rfl, fun i p => rfl⟩, fun u i dom p => rfl, fun u => rfl, ?_⟩
  intro u xs ys i dom c
  constructor <;>
    simp [processDetailItems, List.filterMap_append, List.filterMap_cons,
      processDetailItem]

/-- C4 counterexample: with an id duplicated in the first two inputs, the
inner merge multiplies the matching rows and the join is strictly longer
than the smallest input — the claimed bound
`len(join) ≤ min(len(A), len(B), len(C))` is false. -/
theorem c4_join_counterexample :
    ¬ ((build_common_by_id dupX dupY dupZ).length
        ≤ min (min dupX.length dupY.length) dupZ.length) := by
  decide

/-- When the ids of a result set are pairwise distinct, at most one of its
rows matches any given key. -/
theorem filter_id_len_le_one {A : Type} (L : List (SRow A))
    (h : (L.map SRow.id).Nodup) (k : Int) :
    (L.filter fun x => x.id == k).length ≤ 1 := by
  induction L with
  | nil => simp
  | cons b L ih =>
    simp only [List.map_cons, List.nodup_cons] at h
    obtain ⟨hb, hL⟩ := h
    by_cases hbk : (b.id == k) = true
    · have hknot : ∀ x ∈ L, ¬ ((fun x => x.id == k) x = true) := by
        intro x hx hxk
        apply hb
        have e1 : b.id = k := beq_iff_eq.mp hbk
        have e2 : x.id = k := beq_iff_eq.mp hxk
        rw [e1, ← e2]
        exact List.mem_map_of_mem SRow.id hx
      have hnil : L.filter (fun x => x.id == k) = [] :=
        List.filter_eq_nil_iff.mpr hknot
      simp [List.filter_cons, hbk, hnil]
    · simp only [List.filter_cons, Bool.not_eq_true] at hbk ⊢
      rw [hbk]
      exact ih hL

/-- A list of length at most one is empty or a singleton. -/
theorem len_le_one_shape {A : Type} (L : List (SRow A)) (h : L.length ≤ 1) :
    L = [] ∨ ∃ x, L = [x] := by
  match L with
  | [] => exact Or.inl rfl
  | [x] => exact Or.inr ⟨x, rfl⟩
  | x :: y :: t => simp at h

/-- The inner double loop of the merge over two at-most-singleton match
lists: one copy of the preferred row when both match, nothing otherwise. -/
theorem flatMap_const_shape {A : Type} (Bf Cf : List (SRow A)) (a : SRow A)
    (hB : Bf.length ≤ 1) (hC : Cf.length ≤ 1) :
    (Bf.flatMap fun _ => Cf.map fun _ => a)
      = if Bf.isEmpty || Cf.isEmpty then [] else [a] := by
  rcases len_le_one_shape Bf hB with rfl | ⟨b, rfl⟩ <;>
    rcases len_le_one_shape Cf hC with rfl | ⟨c, rfl⟩ <;> simp

/-- Under distinct ids in the second and third inputs, the merge reduces to
filtering the first input to the ids present in both other inputs. -/
theorem joinCore_eq_filter {A : Type} (X Y Z : List (SRow A))
    (hY : (Y.map SRow.id).Nodup) (hZ : (Z.map SRow.id).Nodup) :
    joinCore X Y Z = X.filter fun a =>
      !(Y.filter fun b => b.id == a.id).isEmpty
      && !(Z.filter fun c => c.id == a.id).isEmpty := by
  induction X with
  | nil => rfl
  | cons a X ih =>
    have hBlen := filter_id_len_le_one Y hY a.id
    have hClen := filter_id_len_le_one Z hZ a.id
    have hinner := flatMap_const_shape (Y.filter fun b => b.id == a.id)
      (Z.filter fun c => c.id == a.id) a hBlen hClen
    show ((Y.filter fun b => b.id == a.id).flatMap fun _ =>
        (Z.filter fun c => c.id == a.id).map fun _ => a) ++ joinCore X Y Z = _
    rw [hinner, ih, List.filter_cons]
    cases hb : (Y.filter fun b => b.id == a.id).isEmpty <;>
      cases hc : (Z.filter fun c => c.id == a.id).isEmpty <;> simp [hb, hc]

/-- A key whose match list in a result set is nonempty occurs among that
set's ids. -/
theorem id_mem_of_filter_nonempty {A : Type} (L : List (SRow A)) (k : Int)
    (h : (L.filter fun x => x.id == k).isEmpty = false) :
    k ∈ L.map SRow.id := by
  cases hf : L.filter (fun x => x.id == k) with
  | nil => rw [hf] at h; simp at h
  | cons b t =>
    have hbmem : b ∈ L.filter (fun x => x.id == k) := by
      rw [hf]; exact List.mem_cons_self b t
    obtain ⟨hbL, hbid⟩ := List.mem_filter.mp hbmem
    exact List.mem_map.mpr ⟨b, hbL, beq_iff_eq.mp hbid⟩

/-- C4 amended: when no id repeats within any single input,
`build_common_by_id` contains only rows of the first (preferred) input —
so every output row takes its field values from it — whose ids occur in
all three inputs, and its length is at most the minimum input length. -/
theorem c4_join_amended {A : Type} (X Y Z : List (SRow A))
    (hX : (X.map SRow.id).Nodup) (hY : (Y.map SRow.id).Nodup)
    (hZ : (Z.map SRow.id).Nodup) :
    (∀ r ∈ build_common_by_id X Y Z,
      r ∈ X ∧ r.id ∈ X.map SRow.id ∧ r.id ∈ Y.map SRow.id ∧ r.id ∈ Z.map SRow.id)
    ∧ (build_common_by_id X Y Z).length
        ≤ min (min X.length Y.length) Z.length := by
  by_cases hg : (X.isEmpty || Y.isEmpty || Z.isEmpty) = true
  · constructor
    · intro r hr
      rw [build_common_by_id, if_pos hg] at hr
      exact absurd hr (List.not_mem_nil r)
    · rw [build_common_by_id, if_pos hg]
      simp
  · have hbc : build_common_by_id X Y Z = joinCore X Y Z := by
      rw [build_common_by_id, if_neg hg]
    rw [hbc, joinCore_eq_filter X Y Z hY hZ]
    have hmem : ∀ r ∈ (X.filter fun a =>
        !(Y.filter fun b => b.id == a.id).isEmpty
        && !(Z.filter fun c => c.id == a.id).isEmpty),
        r ∈ X ∧ r.id ∈ X.map SRow.id ∧ r.id ∈ Y.map SRow.id
          ∧ r.id ∈ Z.map SRow.id := by
      intro r hr
      have hrX : r ∈ X := List.mem_of_mem_filter hr
      have hpr := List.of_mem_filter hr
      rw [Bool.and_eq_true, Bool.not_eq_true', Bool.not_eq_true'] at hpr
      obtain ⟨hY', hZ'⟩ := hpr
      exact ⟨hrX, List.mem_map_of_mem SRow.id hrX,
        id_mem_of_filter_nonempty Y r.id hY',
        id_mem_of_filter_nonempty Z r.id hZ'⟩
    refine ⟨hmem, ?_⟩
    have hsubX : List.Sublist (X.filter fun a =>
        !(Y.filter fun b => b.id == a.id).isEmpty
        && !(Z.filter fun c => c.id == a.id).isEmpty) X :=
      List.filter_sublist X
    have hnodup : ((X.filter fun a =>
        !(Y.filter fun b => b.id == a.id).isEmpty
        && !(Z.filter fun c => c.id == a.id).isEmpty).map SRow.id).Nodup :=
      hX.sublist (hsubX.map SRow.id)
    have hboundOther : ∀ W : List (SRow A),
        (∀ r ∈ (X.filter fun a =>
          !(Y.filter fun b => b.id == a.id).isEmpty
          && !(Z.filter fun c => c.id == a.id).isEmpty),
          r.id ∈ W.map SRow.id) →
        (X.filter fun a =>
          !(Y.filter fun b => b.id == a.id).isEmpty
          && !(Z.filter fun c => c.id == a.id).isEmpty).length ≤ W.length := by
      intro W hsub
      set F := X.filter fun a =>
        !(Y.filter fun b => b.id == a.id).isEmpty
        && !(Z.filter fun c => c.id == a.id).isEmpty with hF
      have h1 : F.length = (F.map SRow.id).length := (List.length_map F SRow.id).symm
      have h2 : (F.map SRow.id).length = (F.map SRow.id).toFinset.card :=
        (List.toFinset_card_of_nodup hnodup).symm
      have h3 : (F.map SRow.id).toFinset ⊆ (W.map SRow.id).toFinset := by
        intro x hx
        rw [List.mem_toFinset] at hx ⊢
        obtain ⟨r, hrF, hrx⟩ := List.mem_map.mp hx
        rw [← hrx]
        exact hsub r hrF
      have h4 : (W.map SRow.id).toFinset.card ≤ (W.map SRow.id).length :=
        List.toFinset_card_le (W.map SRow.id)
      have h5 : (W.map SRow.id).length = W.length := List.length_map W SRow.id
      calc F.length = (F.map SRow.id).length := h1
        _ = (F.map SRow.id).toFinset.card := h2
        _ ≤ (W.map SRow.id).toFinset.card := Finset.card_le_card h3
        _ ≤ (W.map SRow.id).length := h4
        _ = W.length := h5
    refine le_min (le_min ?_ ?_) ?_
    · exact List.length_filter_le _ X
    · exact hboundOther Y (fun r hr => ((hmem r hr).2.2).1)
    · exact hboundOther Z (fun r hr => ((hmem r hr).2.2).2)

/-- Witness for the amended C4 at distinct-id inputs (ids 1,2 / 2,3 / 2). -/
theorem c4_join_amended_witness :
    ((woX.map SRow.id).Nodup ∧ (woY.map SRow.id).Nodup ∧ (woZ.map SRow.id).Nodup)
    ∧ ((∀ r ∈ build_common_by_id woX woY woZ,
        r ∈ woX ∧ r.id ∈ woX.map SRow.id ∧ r.id ∈ woY.map SRow.id
          ∧ r.id ∈ woZ.map SRow.id)
      ∧ (build_common_by_id woX woY woZ).length
          ≤ min (min woX.length woY.length) woZ.length) :=
  ⟨⟨by decide, by decide, by decide⟩,
   c4_join_amended woX woY woZ (by decide) (by decide) (by decide)⟩
